import Mathlib

/-!
# Verification of `cmd/switcher/switch.go` (kubeswitch)

Shallow embedding of the root `switch` command, its `getVaultStore` helper
and the `hooks` subcommand wiring from `cmd/switcher/switch.go`.

External collaborators are modelled as inputs/outputs:
* `config.LoadConfigFromFile` becomes the `loadResult` argument of `runE`
  (`Except` for the Go `(config, err)` pair, `Option` for the possibly-nil
  config pointer);
* `os.Getenv`, `os.UserHomeDir` and `ioutil.ReadFile` become fields of `Env`;
* `pkg.Switcher` is not executed: `runE` returns the `SwitcherCall` record of
  the arguments it would be invoked with, so `Except.error` means the command
  returned before `pkg.Switcher` (i.e. before any discovery);
* `vaultapi.NewClient` / `client.SetToken` are modelled by storing the
  resolved address and token in the `VaultStore` record (the external client
  constructor is treated as total; its failure modes are not claim-relevant).
-/

namespace Kubeswitch

/-- Modelled from the spec: `types.StoreKind` (package `types` is outside
`src/`) is a string tag; the `--store` flag help names the two accepted
values `"filesystem"` and `"vault"`. -/
def StoreKindFilesystem : String := "filesystem"

/-- Modelled from the spec: the Vault backend-kind tag, `"vault"`. -/
def StoreKindVault : String := "vault"

/-- Go constant `vaultTokenFileName` (switch.go line 19). -/
def vaultTokenFileName : String := ".vault-token"

/-- Modelled from the spec: `types.KubeconfigPath` — one configured search
root (`{ path, storeKind }`, spec section 6) as consumed by `RunE`. -/
structure KubeconfigPath where
  Path : String
  Store : String
deriving Repr, DecidableEq

/-- Modelled from the spec: `types.Config` — the configuration-file document:
a list of PathSpec-like entries plus an optional default secret-store API
address (spec section 6); the two fields `RunE`/`getVaultStore` read. -/
structure Config where
  KubeconfigPaths : List KubeconfigPath
  VaultAPIAddress : String
deriving Repr, DecidableEq

/-- The Go zero value `types.Config{}` substituted when the loaded config is
nil (switch.go lines 47-49). -/
def emptyConfig : Config := { KubeconfigPaths := [], VaultAPIAddress := "" }

/-- The process environment and OS facilities read by `getVaultStore`:
`os.Getenv("VAULT_ADDR")`, `os.Getenv("VAULT_TOKEN")`, `os.UserHomeDir()`,
and `ioutil.ReadFile` (modelled as a function from path to content-or-error,
the error being what Go's second return value carries). -/
structure Env where
  VAULT_ADDR : String
  VAULT_TOKEN : String
  userHomeDir : Except String String
  readFile : String → Except String String

/-- The root command's flag variables (switch.go lines 21-35 and the second
`init`), after cobra has parsed the command line. -/
structure RootFlags where
  kubeconfigPath : String
  kubeconfigName : String
  showPreview : Bool
  storageBackend : String
  vaultAPIAddressFromFlag : String
  configPath : String
  stateDirectory : String
deriving Repr, DecidableEq

/-- `store.FilesystemStore` as constructed at switch.go lines 73-77
(the `Logger` field is omitted: logging is an excluded collaborator). -/
structure FilesystemStore where
  KubeconfigPaths : List KubeconfigPath
  KubeconfigName : String
deriving Repr, DecidableEq

/-- `store.VaultStore` as constructed at switch.go lines 147-152; the
`Client` handle is modelled by the address and token it was built from. -/
structure VaultStore where
  KubeconfigName : String
  KubeconfigPaths : List KubeconfigPath
  VaultAddress : String
  VaultToken : String
deriving Repr, DecidableEq

/-- The `store.KubeconfigStore` interface: the closed set of implementations
instantiated by the switch command. -/
inductive KubeconfigStore where
  | filesystem (s : FilesystemStore)
  | vault (s : VaultStore)
deriving Repr, DecidableEq

/-- The backend kind a constructed store instance serves. -/
def storeKind : KubeconfigStore → String
  | .filesystem _ => StoreKindFilesystem
  | .vault _ => StoreKindVault

/-- The `KubeconfigPaths` field of a constructed store instance. -/
def storePaths : KubeconfigStore → List KubeconfigPath
  | .filesystem s => s.KubeconfigPaths
  | .vault s => s.KubeconfigPaths

/-- The error of switch.go line 113: no Vault API address resolvable. -/
def vaultAddressMissingError : String :=
  "when using the vault kubeconfig store, the API address of the vault has to be provided either by command line argument \"vaultAPI\", via environment variable \"VAULT_ADDR\" or via SwitchConfig file"

/-- The error of switch.go line 135: no Vault token resolvable. -/
def vaultTokenMissingError : String :=
  "when using the vault kubeconfig store, a vault API token must be provided.  Per default, the token file in  \"~.vault-token\" is used. The default token can be overriden via the  environment variable \"VAULT_TOKEN\""

/-- The error of switch.go line 89: `fmt.Errorf("unknown store %q", ...)`. -/
def unknownStoreError (s : String) : String :=
  "unknown store \"" ++ s ++ "\""

/-- `getVaultStore` (switch.go lines 100-153), statement for statement:
start from the SwitchConfig address, override with the non-empty flag,
override with non-empty `VAULT_ADDR`; error if still empty; read the
home-directory token file discarding the read error (`tokenBytes, _ :=`),
override with non-empty `VAULT_TOKEN`; error if the token is still empty;
otherwise build the `VaultStore`. -/
def getVaultStore (env : Env) (flags : RootFlags)
    (vaultAPIAddressFromSwitchConfig : String) (paths : List KubeconfigPath) :
    Except String VaultStore :=
  let vaultAPI0 := vaultAPIAddressFromSwitchConfig
  let vaultAPI1 := if flags.vaultAPIAddressFromFlag.length > 0 then
      flags.vaultAPIAddressFromFlag else vaultAPI0
  let vaultAddress := env.VAULT_ADDR
  let vaultAPI := if vaultAddress.length > 0 then vaultAddress else vaultAPI1
  if vaultAPI.length = 0 then
    Except.error vaultAddressMissingError
  else
    match env.userHomeDir with
    | Except.error e => Except.error e
    | Except.ok home =>
      let tokenBytes := (env.readFile (home ++ "/" ++ vaultTokenFileName)).toOption
      let vaultToken0 := match tokenBytes with
        | some s => s
        | none => ""
      let vaultTokenEnv := env.VAULT_TOKEN
      let vaultToken := if vaultTokenEnv.length > 0 then vaultTokenEnv else vaultToken0
      if vaultToken.length = 0 then
        Except.error vaultTokenMissingError
      else
        Except.ok { KubeconfigName := flags.kubeconfigName,
                    KubeconfigPaths := paths,
                    VaultAddress := vaultAPI,
                    VaultToken := vaultToken }

/-- The loop of switch.go lines 64-93 over the configured kubeconfig paths,
with the two dedup booleans and the accumulated `stores` slice as explicit
state. `cfg` is the (override-extended) switch config whose full
`KubeconfigPaths` list is handed to every constructed store. -/
def buildStoresGo (env : Env) (flags : RootFlags) (cfg : Config) :
    List KubeconfigPath → Bool → Bool → List KubeconfigStore →
    Except String (List KubeconfigStore)
  | [], _, _, stores => Except.ok stores
  | p :: rest, useVaultStore, useFilesystemStore, stores =>
    if p.Store = StoreKindFilesystem then
      if useFilesystemStore then
        buildStoresGo env flags cfg rest useVaultStore useFilesystemStore stores
      else
        buildStoresGo env flags cfg rest useVaultStore true
          (stores ++ [KubeconfigStore.filesystem
            { KubeconfigPaths := cfg.KubeconfigPaths,
              KubeconfigName := flags.kubeconfigName }])
    else if p.Store = StoreKindVault then
      if useVaultStore then
        buildStoresGo env flags cfg rest useVaultStore useFilesystemStore stores
      else
        match getVaultStore env flags cfg.VaultAPIAddress cfg.KubeconfigPaths with
        | Except.error e => Except.error e
        | Except.ok vs =>
          buildStoresGo env flags cfg rest true useFilesystemStore
            (stores ++ [KubeconfigStore.vault vs])
    else
      Except.error (unknownStoreError p.Store)

/-- Runs the store-construction loop from the initial state
(`useVaultStore = useFilesystemStore = false`, empty slice). -/
def buildStores (env : Env) (flags : RootFlags) (cfg : Config) :
    Except String (List KubeconfigStore) :=
  buildStoresGo env flags cfg cfg.KubeconfigPaths false false []

/-- The command-line override step of switch.go lines 51-56: when the
`--kubeconfig-path` flag value is non-empty, append one entry built from it
and the `--store` flag. -/
def effectiveConfig (flags : RootFlags) (cfg : Config) : Config :=
  if flags.kubeconfigPath.length > 0 then
    { cfg with KubeconfigPaths := cfg.KubeconfigPaths ++
        [{ Path := flags.kubeconfigPath, Store := flags.storageBackend }] }
  else cfg

/-- The arguments `pkg.Switcher` is invoked with at switch.go line 95. -/
structure SwitcherCall where
  stores : List KubeconfigStore
  config : Config
  configPath : String
  stateDirectory : String
  showPreview : Bool
deriving Repr, DecidableEq

/-- `rootCommand.RunE` (switch.go lines 41-96). `loadResult` is the outcome
of `config.LoadConfigFromFile`; `Except.ok` carries the `pkg.Switcher`
invocation, `Except.error` means `RunE` returned before calling it. -/
def runE (env : Env) (flags : RootFlags)
    (loadResult : Except String (Option Config)) : Except String SwitcherCall :=
  match loadResult with
  | Except.error e => Except.error ("failed to read switch config file: " ++ e)
  | Except.ok cfgOpt =>
    let switchConfig := effectiveConfig flags (cfgOpt.getD emptyConfig)
    match buildStores env flags switchConfig with
    | Except.error e => Except.error e
    | Except.ok stores =>
      Except.ok { stores := stores,
                  config := switchConfig,
                  configPath := flags.configPath,
                  stateDirectory := flags.stateDirectory,
                  showPreview := flags.showPreview }

/-- The `hooks` subcommand's command line: for each registered flag, `some`
when the operator passed it, `none` when cobra falls back to the registered
default (switch.go lines 174-196). -/
structure HookCmdLine where
  configPathArg : Option String
  stateDirectoryArg : Option String
  hookNameArg : Option String
  runImmediatelyArg : Option Bool
deriving Repr, DecidableEq

/-- The registered default of the `--run-immediately` flag
(switch.go lines 192-196). -/
def runImmediatelyDefault : Bool := true

/-- The arguments `hooks.Hooks` is invoked with (switch.go line 170). -/
structure HooksCall where
  configPath : String
  stateDirectory : String
  hookName : String
  runImmediately : Bool
deriving Repr, DecidableEq

/-- The `hooks` subcommand's `RunE` (switch.go lines 165-172) together with
cobra's flag resolution: each flag variable holds the parsed value when the
flag was passed, its registered default otherwise. `home` stands for the
expansion of `$HOME`. -/
def hooksRunE (home : String) (args : HookCmdLine) : HooksCall :=
  { configPath := args.configPathArg.getD (home ++ "/.kube/switch-config.yaml"),
    stateDirectory := args.stateDirectoryArg.getD (home ++ "/.kube/switch-state"),
    hookName := args.hookNameArg.getD "",
    runImmediately := args.runImmediatelyArg.getD runImmediatelyDefault }

/-- Spec-side definition (section 4.2): the Vault API address resolution as a
single precedence chain. The code's behaviour is compared against it:
environment variable first, then the flag, then the SwitchConfig file. -/
def resolveVaultAddr (env : Env) (flags : RootFlags) (cfgAddr : String) : String :=
  if env.VAULT_ADDR.length > 0 then env.VAULT_ADDR
  else if flags.vaultAPIAddressFromFlag.length > 0 then flags.vaultAPIAddressFromFlag
  else cfgAddr

/-- Spec-side definition (section 4.2): first-occurrence deduplication with
an explicit seen-accumulator, for the registration order of backend kinds. -/
def dedupFrom (seen : List String) : List String → List String
  | [] => []
  | k :: l => if k ∈ seen then dedupFrom seen l else k :: dedupFrom (k :: seen) l

/-- Spec-side definition: the backend kinds of a list in the order each kind
first occurs. -/
def dedupFirst (l : List String) : List String := dedupFrom [] l

/-- Character-list prefix test (Boolean, structurally recursive so that the
kernel can evaluate it on witnesses). -/
def charsHasPrefix : List Char → List Char → Bool
  | _, [] => true
  | [], _ :: _ => false
  | a :: as, b :: bs => a == b && charsHasPrefix as bs

/-- Substring test on character lists: the needle occurs at some position. -/
def charsMention : List Char → List Char → Bool
  | [], n => n.isEmpty
  | h :: t, n => charsHasPrefix (h :: t) n || charsMention t n

/-- Substring test on strings via their character lists. -/
def strMentions (hay needle : String) : Bool :=
  charsMention hay.data needle.data

/-- The backend kinds already holding a store instance, as a list, given the
two dedup booleans of the loop. -/
def seenKinds (uv uf : Bool) : List String :=
  (if uv then [StoreKindVault] else []) ++ (if uf then [StoreKindFilesystem] else [])

/-! Concrete fixtures used by witnesses and counterexamples. -/

/-- Fixture: a Filesystem-kind configured entry. -/
def p_fs : KubeconfigPath := { Path := "/kube/a", Store := "filesystem" }

/-- Fixture: a Vault-kind configured entry. -/
def p_vault : KubeconfigPath := { Path := "secret/b", Store := "vault" }

/-- Fixture: an entry with an unrecognized backend kind. -/
def p_weird : KubeconfigPath := { Path := "/kube/w", Store := "weird" }

/-- Fixture: root flags at their registered defaults except that the
`--kubeconfig-path` override is empty. -/
def flags0 : RootFlags :=
  { kubeconfigPath := "", kubeconfigName := "config", showPreview := true,
    storageBackend := "filesystem", vaultAPIAddressFromFlag := "",
    configPath := "/home/user/.kube/switch-config.yaml",
    stateDirectory := "/home/user/.kube/switch-state" }

/-- Fixture: environment with a Vault token but no `VAULT_ADDR`, and an
unreadable token file. -/
def env0 : Env :=
  { VAULT_ADDR := "", VAULT_TOKEN := "tok",
    userHomeDir := Except.ok "/home/user",
    readFile := fun _ => Except.error "io error" }

/-- Fixture: config with one Filesystem and one Vault entry and a configured
Vault address. -/
def cfg0 : Config :=
  { KubeconfigPaths := [p_fs, p_vault], VaultAPIAddress := "http://vault:8200" }

/-- The FilesystemStore the switch command constructs for `cfg0`. -/
def fsStore0 : FilesystemStore :=
  { KubeconfigPaths := [p_fs, p_vault], KubeconfigName := "config" }

/-- The VaultStore the switch command constructs for `cfg0` under `env0`. -/
def vaultStore0 : VaultStore :=
  { KubeconfigName := "config", KubeconfigPaths := [p_fs, p_vault],
    VaultAddress := "http://vault:8200", VaultToken := "tok" }

/-- The `pkg.Switcher` invocation produced for `cfg0` under `env0`. -/
def call0 : SwitcherCall :=
  { stores := [KubeconfigStore.filesystem fsStore0, KubeconfigStore.vault vaultStore0],
    config := cfg0,
    configPath := "/home/user/.kube/switch-config.yaml",
    stateDirectory := "/home/user/.kube/switch-state",
    showPreview := true }

/-- Fixture: flags with a non-empty `--vault-api-address` value `"F"`. -/
def flags3 : RootFlags :=
  { flags0 with vaultAPIAddressFromFlag := "F" }

/-- Fixture: environment with `VAULT_ADDR = "E"` and a token. -/
def env3 : Env :=
  { VAULT_ADDR := "E", VAULT_TOKEN := "tok",
    userHomeDir := Except.ok "/home/user",
    readFile := fun _ => Except.error "io error" }

/-- Fixture: environment with neither a Vault address nor any token source. -/
def env5 : Env :=
  { VAULT_ADDR := "", VAULT_TOKEN := "",
    userHomeDir := Except.ok "/home/user",
    readFile := fun _ => Except.error "open /home/user/.vault-token: no such file or directory" }

/-- Fixture: a Vault entry followed by an unknown-kind entry, no address. -/
def cfg5 : Config := { KubeconfigPaths := [p_vault, p_weird], VaultAPIAddress := "" }

/-- Fixture: config with only an unknown-kind entry. -/
def cfg5w : Config := { KubeconfigPaths := [p_weird], VaultAPIAddress := "" }

/-- Fixture: an unknown-kind entry followed by a Vault entry, no address. -/
def cfg6 : Config := { KubeconfigPaths := [p_weird, p_vault], VaultAPIAddress := "" }

/-- Fixture: config with only a Vault entry and no address. -/
def cfg6w : Config := { KubeconfigPaths := [p_vault], VaultAPIAddress := "" }

/-- Fixture: environment where `VAULT_TOKEN` wins over a readable file. -/
def env4 : Env :=
  { VAULT_ADDR := "", VAULT_TOKEN := "envtok",
    userHomeDir := Except.ok "/home/user",
    readFile := fun _ => Except.ok "filetok" }

/-- The VaultStore produced by `getVaultStore env4 flags0 "http://v" []`. -/
def vs4 : VaultStore :=
  { KubeconfigName := "config", KubeconfigPaths := [],
    VaultAddress := "http://v", VaultToken := "envtok" }

/-- Fixture: environment with an address, no `VAULT_TOKEN`, and a token file
whose read fails. -/
def env10 : Env :=
  { VAULT_ADDR := "http://v", VAULT_TOKEN := "",
    userHomeDir := Except.ok "/home/user",
    readFile := fun _ => Except.error "permission denied" }

/-- Fixture: flags with a non-empty `--kubeconfig-path` override. -/
def flags7 : RootFlags := { flags0 with kubeconfigPath := "/override/config" }

/-- The PathSpec entry the `--kubeconfig-path` override appends. -/
def ov7 : KubeconfigPath := { Path := "/override/config", Store := "filesystem" }

/-- Fixture: config with a single Filesystem entry. -/
def cfg7 : Config := { KubeconfigPaths := [p_fs], VaultAPIAddress := "" }

/-- The `pkg.Switcher` invocation produced for `cfg7` under `flags7`. -/
def call7 : SwitcherCall :=
  { stores := [KubeconfigStore.filesystem
      { KubeconfigPaths := [p_fs, ov7], KubeconfigName := "config" }],
    config := { KubeconfigPaths := [p_fs, ov7], VaultAPIAddress := "" },
    configPath := "/home/user/.kube/switch-config.yaml",
    stateDirectory := "/home/user/.kube/switch-state",
    showPreview := true }

/-- Fixture: hooks command line that does not pass `--run-immediately`. -/
def args9 : HookCmdLine :=
  { configPathArg := none, stateDirectoryArg := none,
    hookNameArg := some "sync", runImmediatelyArg := none }


lemma dedupFrom_congr (l : List String) :
    ∀ s₁ s₂ : List String, (∀ a, a ∈ s₁ ↔ a ∈ s₂) →
      dedupFrom s₁ l = dedupFrom s₂ l := by
  induction l with
  | nil => intro s₁ s₂ _; rfl
  | cons k t ih =>
    intro s₁ s₂ hs
    simp only [dedupFrom]
    by_cases hk : k ∈ s₁
    · rw [if_pos hk, if_pos ((hs k).mp hk)]
      exact ih s₁ s₂ hs
    · rw [if_neg hk, if_neg (fun hc => hk ((hs k).mpr hc))]
      refine congrArg (k :: ·) (ih _ _ ?_)
      intro a
      simp only [List.mem_cons]
      exact or_congr Iff.rfl (hs a)

lemma mem_dedupFrom (a : String) (l : List String) :
    ∀ seen : List String, a ∈ dedupFrom seen l ↔ a ∈ l ∧ a ∉ seen := by
  induction l with
  | nil => intro seen; simp [dedupFrom]
  | cons k t ih =>
    intro seen
    simp only [dedupFrom]
    by_cases hk : k ∈ seen
    · rw [if_pos hk, ih]
      constructor
      · rintro ⟨ha, hna⟩; exact ⟨List.mem_cons_of_mem _ ha, hna⟩
      · rintro ⟨ha, hna⟩
        rcases List.mem_cons.mp ha with rfl | ha
        · exact absurd hk hna
        · exact ⟨ha, hna⟩
    · rw [if_neg hk]
      simp only [List.mem_cons, ih, not_or]
      by_cases hak : a = k
      · subst hak; simp [hk]
      · simp [hak]

lemma nodup_dedupFrom (l : List String) :
    ∀ seen : List String, (dedupFrom seen l).Nodup := by
  induction l with
  | nil => intro seen; simp [dedupFrom]
  | cons k t ih =>
    intro seen
    simp only [dedupFrom]
    by_cases hk : k ∈ seen
    · rw [if_pos hk]; exact ih seen
    · rw [if_neg hk]
      refine List.nodup_cons.mpr ⟨?_, ih _⟩
      intro hc
      exact ((mem_dedupFrom k t (k :: seen)).mp hc).2 (List.mem_cons_self _ _)

lemma mem_dedupFirst (a : String) (l : List String) :
    a ∈ dedupFirst l ↔ a ∈ l := by
  simp [dedupFirst, mem_dedupFrom]

lemma nodup_dedupFirst (l : List String) : (dedupFirst l).Nodup :=
  nodup_dedupFrom l []

lemma length_dedupFirst (l : List String) :
    (dedupFirst l).length = l.dedup.length := by
  have h1 : (dedupFirst l).toFinset = l.toFinset := by
    ext a
    simp [List.mem_toFinset, mem_dedupFirst]
  calc (dedupFirst l).length
      = (dedupFirst l).toFinset.card :=
        (List.toFinset_card_of_nodup (nodup_dedupFirst l)).symm
    _ = l.toFinset.card := by rw [h1]
    _ = l.dedup.length := List.card_toFinset l

lemma string_length_eq_zero (s : String) : s.length = 0 ↔ s = "" := by
  cases s with
  | mk data => simp [String.length, String.ext_iff]

/-- The address computed by the two sequential overrides in `getVaultStore`
is definitionally the spec's precedence chain `env > flag > file`. -/
lemma getVaultStore_addr_missing (env : Env) (flags : RootFlags)
    (cfgAddr : String) (paths : List KubeconfigPath)
    (h : resolveVaultAddr env flags cfgAddr = "") :
    getVaultStore env flags cfgAddr paths = Except.error vaultAddressMissingError := by
  have hlen : (resolveVaultAddr env flags cfgAddr).length = 0 :=
    (string_length_eq_zero _).mpr h
  simp only [getVaultStore]
  rw [show (if env.VAULT_ADDR.length > 0 then env.VAULT_ADDR
      else if flags.vaultAPIAddressFromFlag.length > 0 then flags.vaultAPIAddressFromFlag
      else cfgAddr) = resolveVaultAddr env flags cfgAddr from rfl]
  rw [if_pos hlen]

/-- When the address resolves and the home directory is known,
`getVaultStore` is the token-precedence computation: environment token if
non-empty, otherwise the token-file content (a failed read counting as the
empty string), erroring when that is empty. -/
lemma getVaultStore_resolve (env : Env) (flags : RootFlags) (cfgAddr : String)
    (paths : List KubeconfigPath) (home : String)
    (hhome : env.userHomeDir = Except.ok home)
    (haddr : resolveVaultAddr env flags cfgAddr ≠ "") :
    getVaultStore env flags cfgAddr paths =
      (if (if env.VAULT_TOKEN.length > 0 then env.VAULT_TOKEN
            else ((env.readFile (home ++ "/" ++ vaultTokenFileName)).toOption.getD "")) = ""
       then Except.error vaultTokenMissingError
       else Except.ok
         { KubeconfigName := flags.kubeconfigName,
           KubeconfigPaths := paths,
           VaultAddress := resolveVaultAddr env flags cfgAddr,
           VaultToken := (if env.VAULT_TOKEN.length > 0 then env.VAULT_TOKEN
             else ((env.readFile (home ++ "/" ++ vaultTokenFileName)).toOption.getD "")) }) := by
  have hlen : ¬(resolveVaultAddr env flags cfgAddr).length = 0 :=
    fun hc => haddr ((string_length_eq_zero _).mp hc)
  simp only [getVaultStore, hhome]
  rw [show (if env.VAULT_ADDR.length > 0 then env.VAULT_ADDR
      else if flags.vaultAPIAddressFromFlag.length > 0 then flags.vaultAPIAddressFromFlag
      else cfgAddr) = resolveVaultAddr env flags cfgAddr from rfl]
  rw [if_neg hlen]
  rcases hr : env.readFile (home ++ "/" ++ vaultTokenFileName) with e | c
  all_goals simp only [hr, Except.toOption, Option.getD, string_length_eq_zero]

/-- On success, `getVaultStore` hands the store the path list it was given,
the configured kubeconfig name, and the chain-resolved address. -/
lemma getVaultStore_ok_basic (env : Env) (flags : RootFlags) (cfgAddr : String)
    (paths : List KubeconfigPath) (vs : VaultStore)
    (h : getVaultStore env flags cfgAddr paths = Except.ok vs) :
    vs.KubeconfigPaths = paths ∧ vs.KubeconfigName = flags.kubeconfigName ∧
      vs.VaultAddress = resolveVaultAddr env flags cfgAddr := by
  by_cases haddr : resolveVaultAddr env flags cfgAddr = ""
  · rw [getVaultStore_addr_missing env flags cfgAddr paths haddr] at h
    exact Except.noConfusion h
  · rcases hhome : env.userHomeDir with e | home
    · have herr : getVaultStore env flags cfgAddr paths = Except.error e := by
        simp only [getVaultStore, hhome]
        rw [show (if env.VAULT_ADDR.length > 0 then env.VAULT_ADDR
            else if flags.vaultAPIAddressFromFlag.length > 0 then flags.vaultAPIAddressFromFlag
            else cfgAddr) = resolveVaultAddr env flags cfgAddr from rfl]
        rw [if_neg (fun hc => haddr ((string_length_eq_zero _).mp hc))]
      rw [herr] at h
      exact Except.noConfusion h
    · rw [getVaultStore_resolve env flags cfgAddr paths home hhome haddr] at h
      by_cases htok : (if env.VAULT_TOKEN.length > 0 then env.VAULT_TOKEN
          else ((env.readFile (home ++ "/" ++ vaultTokenFileName)).toOption.getD "")) = ""
      · rw [if_pos htok] at h
        exact Except.noConfusion h
      · rw [if_neg htok] at h
        injection h with h'
        subst h'
        exact ⟨rfl, rfl, rfl⟩

lemma fs_mem_seenKinds (uv : Bool) : StoreKindFilesystem ∈ seenKinds uv true := by
  cases uv <;> decide

lemma vault_mem_seenKinds (uf : Bool) : StoreKindVault ∈ seenKinds true uf := by
  cases uf <;> decide

lemma fs_not_mem_seenKinds (uv : Bool) : StoreKindFilesystem ∉ seenKinds uv false := by
  cases uv <;> decide

lemma vault_not_mem_seenKinds (uf : Bool) : StoreKindVault ∉ seenKinds false uf := by
  cases uf <;> decide

lemma seenKinds_insert_fs (uv : Bool) (a : String) :
    a ∈ StoreKindFilesystem :: seenKinds uv false ↔ a ∈ seenKinds uv true := by
  cases uv
  all_goals simp [seenKinds]
  tauto

lemma seenKinds_insert_vault (uf : Bool) (a : String) :
    a ∈ StoreKindVault :: seenKinds false uf ↔ a ∈ seenKinds true uf := by
  cases uf
  all_goals simp [seenKinds]

/-- Core invariant of the store-construction loop: on success, the kinds of
the produced stores are the accumulated kinds followed by the
first-occurrence deduplication of the remaining entries' kinds, relative to
the kinds already marked used by the two booleans. -/
lemma buildStoresGo_ok_map (env : Env) (flags : RootFlags) (cfg : Config)
    (l : List KubeconfigPath) :
    ∀ (uv uf : Bool) (acc res : List KubeconfigStore),
      buildStoresGo env flags cfg l uv uf acc = Except.ok res →
      List.map storeKind res =
        List.map storeKind acc ++
          dedupFrom (seenKinds uv uf) (List.map KubeconfigPath.Store l) := by
  induction l with
  | nil =>
    intro uv uf acc res h
    simp only [buildStoresGo, Except.ok.injEq] at h
    subst h
    simp [dedupFrom]
  | cons p rest ih =>
    intro uv uf acc res h
    simp only [buildStoresGo] at h
    by_cases hfs : p.Store = StoreKindFilesystem
    · rw [if_pos hfs] at h
      simp only [List.map_cons, hfs, dedupFrom]
      cases uf with
      | true =>
        rw [if_pos rfl] at h
        rw [if_pos (fs_mem_seenKinds uv)]
        exact ih uv true acc res h
      | false =>
        rw [if_neg (by simp)] at h
        rw [if_neg (fs_not_mem_seenKinds uv)]
        have hih := ih uv true
          (acc ++ [KubeconfigStore.filesystem
            { KubeconfigPaths := cfg.KubeconfigPaths,
              KubeconfigName := flags.kubeconfigName }]) res h
        rw [hih, List.map_append]
        rw [dedupFrom_congr (List.map KubeconfigPath.Store rest)
          (StoreKindFilesystem :: seenKinds uv false) (seenKinds uv true)
          (seenKinds_insert_fs uv)]
        simp [storeKind]
    · rw [if_neg hfs] at h
      by_cases hv : p.Store = StoreKindVault
      · rw [if_pos hv] at h
        simp only [List.map_cons, hv, dedupFrom]
        cases uv with
        | true =>
          rw [if_pos rfl] at h
          rw [if_pos (vault_mem_seenKinds uf)]
          exact ih true uf acc res h
        | false =>
          rw [if_neg (by simp)] at h
          rw [if_neg (vault_not_mem_seenKinds uf)]
          rcases hgv : getVaultStore env flags cfg.VaultAPIAddress cfg.KubeconfigPaths
            with e | vs
          · rw [hgv] at h
            exact Except.noConfusion h
          · rw [hgv] at h
            have hih := ih true uf (acc ++ [KubeconfigStore.vault vs]) res h
            rw [hih, List.map_append]
            rw [dedupFrom_congr (List.map KubeconfigPath.Store rest)
              (StoreKindVault :: seenKinds false uf) (seenKinds true uf)
              (seenKinds_insert_vault uf)]
            simp [storeKind]
      · rw [if_neg hv] at h
        exact Except.noConfusion h

/-- Every store produced by the loop is either inherited from the
accumulator or carries the full configured path list. -/
lemma buildStoresGo_ok_paths (env : Env) (flags : RootFlags) (cfg : Config)
    (l : List KubeconfigPath) :
    ∀ (uv uf : Bool) (acc res : List KubeconfigStore),
      buildStoresGo env flags cfg l uv uf acc = Except.ok res →
      ∀ s ∈ res, s ∈ acc ∨ storePaths s = cfg.KubeconfigPaths := by
  induction l with
  | nil =>
    intro uv uf acc res h s hs
    simp only [buildStoresGo, Except.ok.injEq] at h
    subst h
    exact Or.inl hs
  | cons p rest ih =>
    intro uv uf acc res h s hs
    simp only [buildStoresGo] at h
    by_cases hfs : p.Store = StoreKindFilesystem
    · rw [if_pos hfs] at h
      cases uf with
      | true =>
        rw [if_pos rfl] at h
        exact ih uv true acc res h s hs
      | false =>
        rw [if_neg (by simp)] at h
        rcases ih uv true _ res h s hs with hacc | hp
        · rcases List.mem_append.mp hacc with h1 | h2
          · exact Or.inl h1
          · rcases List.mem_singleton.mp h2 with rfl
            exact Or.inr rfl
        · exact Or.inr hp
    · rw [if_neg hfs] at h
      by_cases hv : p.Store = StoreKindVault
      · rw [if_pos hv] at h
        cases uv with
        | true =>
          rw [if_pos rfl] at h
          exact ih true uf acc res h s hs
        | false =>
          rw [if_neg (by simp)] at h
          rcases hgv : getVaultStore env flags cfg.VaultAPIAddress cfg.KubeconfigPaths
            with e | vs
          · rw [hgv] at h
            exact Except.noConfusion h
          · rw [hgv] at h
            rcases ih true uf _ res h s hs with hacc | hp
            · rcases List.mem_append.mp hacc with h1 | h2
              · exact Or.inl h1
              · rcases List.mem_singleton.mp h2 with rfl
                exact Or.inr
                  (getVaultStore_ok_basic env flags cfg.VaultAPIAddress
                    cfg.KubeconfigPaths vs hgv).1
            · exact Or.inr hp
      · rw [if_neg hv] at h
        exact Except.noConfusion h

/-- An entry whose kind is neither Filesystem nor Vault forces the loop into
an error, whatever the state. -/
lemma buildStoresGo_unknown_error (env : Env) (flags : RootFlags) (cfg : Config)
    (l : List KubeconfigPath) :
    ∀ (uv uf : Bool) (acc : List KubeconfigStore),
      (∃ p ∈ l, p.Store ≠ StoreKindFilesystem ∧ p.Store ≠ StoreKindVault) →
      ∃ e, buildStoresGo env flags cfg l uv uf acc = Except.error e := by
  induction l with
  | nil =>
    intro uv uf acc hex
    rcases hex with ⟨p, hp, _⟩
    exact absurd hp (List.not_mem_nil p)
  | cons p rest ih =>
    intro uv uf acc hex
    simp only [buildStoresGo]
    by_cases hfs : p.Store = StoreKindFilesystem
    · rw [if_pos hfs]
      have hex' : ∃ q ∈ rest, q.Store ≠ StoreKindFilesystem ∧ q.Store ≠ StoreKindVault := by
        rcases hex with ⟨q, hq, hqk⟩
        rcases List.mem_cons.mp hq with rfl | hq'
        · exact absurd hfs hqk.1
        · exact ⟨q, hq', hqk⟩
      cases uf with
      | true =>
        rw [if_pos rfl]
        exact ih uv true acc hex'
      | false =>
        rw [if_neg (by simp)]
        exact ih uv true _ hex'
    · rw [if_neg hfs]
      by_cases hv : p.Store = StoreKindVault
      · rw [if_pos hv]
        have hex' : ∃ q ∈ rest, q.Store ≠ StoreKindFilesystem ∧ q.Store ≠ StoreKindVault := by
          rcases hex with ⟨q, hq, hqk⟩
          rcases List.mem_cons.mp hq with rfl | hq'
          · exact absurd hv hqk.2
          · exact ⟨q, hq', hqk⟩
        cases uv with
        | true =>
          rw [if_pos rfl]
          exact ih true uf acc hex'
        | false =>
          rw [if_neg (by simp)]
          rcases hgv : getVaultStore env flags cfg.VaultAPIAddress cfg.KubeconfigPaths
            with e | vs
          · exact ⟨e, rfl⟩
          · exact ih true uf _ hex'
      · rw [if_neg hv]
        exact ⟨unknownStoreError p.Store, rfl⟩

/-- When every entry before the offending one is Filesystem-kind, the loop
fails with exactly the unknown-store error naming the offending kind. -/
lemma buildStoresGo_prefix_unknown (env : Env) (flags : RootFlags) (cfg : Config)
    (pre : List KubeconfigPath) :
    ∀ (bad : KubeconfigPath) (rest : List KubeconfigPath) (uv uf : Bool)
      (acc : List KubeconfigStore),
      (∀ p ∈ pre, p.Store = StoreKindFilesystem) →
      bad.Store ≠ StoreKindFilesystem → bad.Store ≠ StoreKindVault →
      buildStoresGo env flags cfg (pre ++ bad :: rest) uv uf acc =
        Except.error (unknownStoreError bad.Store) := by
  induction pre with
  | nil =>
    intro bad rest uv uf acc _ hb1 hb2
    simp only [List.nil_append, buildStoresGo]
    rw [if_neg hb1, if_neg hb2]
  | cons p pre' ih =>
    intro bad rest uv uf acc hpre hb1 hb2
    have hp : p.Store = StoreKindFilesystem := hpre p (List.mem_cons_self p pre')
    have hpre' : ∀ q ∈ pre', q.Store = StoreKindFilesystem :=
      fun q hq => hpre q (List.mem_cons_of_mem p hq)
    simp only [List.cons_append, buildStoresGo]
    rw [if_pos hp]
    cases uf with
    | true =>
      rw [if_pos rfl]
      exact ih bad rest uv true acc hpre' hb1 hb2
    | false =>
      rw [if_neg (by simp)]
      exact ih bad rest uv true _ hpre' hb1 hb2

/-- When `getVaultStore` fails, a list of recognized kinds containing a Vault
entry (starting with no Vault store yet) drives the loop into exactly that
failure. -/
lemma buildStoresGo_vault_first_error (env : Env) (flags : RootFlags) (cfg : Config)
    (err : String)
    (hgv : getVaultStore env flags cfg.VaultAPIAddress cfg.KubeconfigPaths =
      Except.error err)
    (l : List KubeconfigPath) :
    ∀ (uf : Bool) (acc : List KubeconfigStore),
      (∀ p ∈ l, p.Store = StoreKindFilesystem ∨ p.Store = StoreKindVault) →
      (∃ p ∈ l, p.Store = StoreKindVault) →
      buildStoresGo env flags cfg l false uf acc = Except.error err := by
  induction l with
  | nil =>
    intro uf acc _ hex
    rcases hex with ⟨p, hp, _⟩
    exact absurd hp (List.not_mem_nil p)
  | cons p rest ih =>
    intro uf acc hknown hex
    simp only [buildStoresGo]
    by_cases hv : p.Store = StoreKindVault
    · have hfs : p.Store ≠ StoreKindFilesystem := by
        rw [hv]; decide
      rw [if_neg hfs, if_pos hv, if_neg (by simp)]
      rw [hgv]
    · have hfs : p.Store = StoreKindFilesystem :=
        (hknown p (List.mem_cons_self p rest)).resolve_right hv
      rw [if_pos hfs]
      have hknown' : ∀ q ∈ rest, q.Store = StoreKindFilesystem ∨ q.Store = StoreKindVault :=
        fun q hq => hknown q (List.mem_cons_of_mem p hq)
      have hex' : ∃ q ∈ rest, q.Store = StoreKindVault := by
        rcases hex with ⟨q, hq, hqv⟩
        rcases List.mem_cons.mp hq with rfl | hq'
        · exact absurd hqv hv
        · exact ⟨q, hq', hqv⟩
      cases uf with
      | true =>
        rw [if_pos rfl]
        exact ih true acc hknown' hex'
      | false =>
        rw [if_neg (by simp)]
        exact ih true _ hknown' hex'

/-- On a successful run, the kinds of the stores handed to `pkg.Switcher`
are the first-occurrence deduplication of the configured kinds. -/
lemma runE_ok_kinds (env : Env) (flags : RootFlags)
    (loadResult : Except String (Option Config)) (call : SwitcherCall)
    (h : runE env flags loadResult = Except.ok call) :
    List.map storeKind call.stores =
      dedupFirst (List.map KubeconfigPath.Store call.config.KubeconfigPaths) := by
  cases loadResult with
  | error e => simp [runE] at h
  | ok cfgOpt =>
    simp only [runE] at h
    rcases hb : buildStores env flags (effectiveConfig flags (cfgOpt.getD emptyConfig))
      with e | stores
    · rw [hb] at h
      exact Except.noConfusion h
    · rw [hb] at h
      injection h with h'
      subst h'
      have hmap := buildStoresGo_ok_map env flags
        (effectiveConfig flags (cfgOpt.getD emptyConfig))
        (effectiveConfig flags (cfgOpt.getD emptyConfig)).KubeconfigPaths
        false false [] stores hb
      simpa [dedupFirst, seenKinds] using hmap

/-- On a successful run, every store handed to `pkg.Switcher` carries the
full configured path list. -/
lemma runE_ok_paths (env : Env) (flags : RootFlags)
    (loadResult : Except String (Option Config)) (call : SwitcherCall)
    (h : runE env flags loadResult = Except.ok call) :
    ∀ s ∈ call.stores, storePaths s = call.config.KubeconfigPaths := by
  cases loadResult with
  | error e => simp [runE] at h
  | ok cfgOpt =>
    simp only [runE] at h
    rcases hb : buildStores env flags (effectiveConfig flags (cfgOpt.getD emptyConfig))
      with e | stores
    · rw [hb] at h
      exact Except.noConfusion h
    · rw [hb] at h
      injection h with h'
      subst h'
      intro s hs
      rcases buildStoresGo_ok_paths env flags
        (effectiveConfig flags (cfgOpt.getD emptyConfig))
        (effectiveConfig flags (cfgOpt.getD emptyConfig)).KubeconfigPaths
        false false [] stores hb s hs with hacc | hp
      · exact absurd hacc (List.not_mem_nil s)
      · exact hp

/-- On a successful run, the config handed to `pkg.Switcher` is the loaded
config extended by the command-line override. -/
lemma runE_ok_config (env : Env) (flags : RootFlags)
    (cfgOpt : Option Config) (call : SwitcherCall)
    (h : runE env flags (Except.ok cfgOpt) = Except.ok call) :
    call.config = effectiveConfig flags (cfgOpt.getD emptyConfig) := by
  simp only [runE] at h
  rcases hb : buildStores env flags (effectiveConfig flags (cfgOpt.getD emptyConfig))
    with e | stores
  · rw [hb] at h
    exact Except.noConfusion h
  · rw [hb] at h
    injection h with h'
    subst h'
    rfl

lemma nodup_filter_eq_length_le_one {α : Type} [DecidableEq α]
    (l : List α) (h : l.Nodup) (k : α) :
    (l.filter (fun x => x = k)).length ≤ 1 := by
  induction l with
  | nil => simp
  | cons a t ih =>
    rcases List.nodup_cons.mp h with ⟨hna, hnt⟩
    rw [List.filter_cons]
    by_cases hak : a = k
    · subst hak
      have hft : t.filter (fun x => x = a) = [] := by
        rw [List.filter_eq_nil_iff]
        intro b hb
        simp only [decide_eq_true_eq]
        rintro rfl
        exact hna hb
      simp [hft]
    · simp [hak, ih hnt]

/-! The claims. -/

/-- C1: for every configuration list of PathSpecs processed by a successful
run of the root switch command, at most one store instance is constructed
per backend kind, and the length of the stores list handed to `pkg.Switcher`
equals the number of distinct backend kinds among the configured entries. -/
theorem C1_one_store_per_kind (env : Env) (flags : RootFlags)
    (loadResult : Except String (Option Config)) (call : SwitcherCall)
    (h : runE env flags loadResult = Except.ok call) :
    (∀ k : String, (call.stores.filter (fun s => storeKind s = k)).length ≤ 1) ∧
    call.stores.length =
      (List.map KubeconfigPath.Store call.config.KubeconfigPaths).dedup.length := by
  have hmap := runE_ok_kinds env flags loadResult call h
  constructor
  · intro k
    have hnd : (List.map storeKind call.stores).Nodup := by
      rw [hmap]
      exact nodup_dedupFirst _
    have h2 : ((List.map storeKind call.stores).filter (fun x => x = k))
        = List.map storeKind (call.stores.filter (fun s => storeKind s = k)) := by
      rw [List.filter_map]
      rfl
    have h3 : (call.stores.filter (fun s => storeKind s = k)).length
        = ((List.map storeKind call.stores).filter (fun x => x = k)).length := by
      rw [h2, List.length_map]
    rw [h3]
    exact nodup_filter_eq_length_le_one _ hnd k
  · have hlen : call.stores.length = (List.map storeKind call.stores).length :=
      (List.length_map _ _).symm
    rw [hlen, hmap, length_dedupFirst]

set_option maxRecDepth 100000 in
/-- C1 witness at the two-kind fixture. -/
theorem C1_witness :
    ((call0.stores.filter (fun s => storeKind s = StoreKindFilesystem)).length ≤ 1) ∧
    call0.stores.length =
      (List.map KubeconfigPath.Store call0.config.KubeconfigPaths).dedup.length :=
  ⟨(C1_one_store_per_kind env0 flags0 (Except.ok (some cfg0)) call0 (by rfl)).1
      StoreKindFilesystem,
   (C1_one_store_per_kind env0 flags0 (Except.ok (some cfg0)) call0 (by rfl)).2⟩

set_option maxRecDepth 100000 in
/-- C2 counterexample: with one Filesystem-kind and one Vault-kind entry
configured, the constructed FilesystemStore's `KubeconfigPaths` contains the
Vault-kind entry and the VaultStore's contains the Filesystem-kind entry, so
neither store receives exactly the entries of its own kind. -/
theorem C2_counterexample :
    runE env0 flags0 (Except.ok (some cfg0)) = Except.ok call0 ∧
    p_vault ∈ fsStore0.KubeconfigPaths ∧
    p_vault.Store ≠ StoreKindFilesystem ∧
    p_fs ∈ vaultStore0.KubeconfigPaths ∧
    p_fs.Store ≠ StoreKindVault :=
  ⟨by rfl, by decide, by decide, by decide, by decide⟩

/-- C2 amended: every store constructed by the switch command receives the
full configured `KubeconfigPaths` list (the override-extended list), not a
kind-filtered sublist; restricting to its own kind is left to the store. -/
theorem C2_amended_full_paths (env : Env) (flags : RootFlags)
    (loadResult : Except String (Option Config)) (call : SwitcherCall)
    (h : runE env flags loadResult = Except.ok call) :
    ∀ s ∈ call.stores, storePaths s = call.config.KubeconfigPaths :=
  runE_ok_paths env flags loadResult call h

set_option maxRecDepth 100000 in
/-- C2 amended witness: the FilesystemStore of the fixture carries the full
configured list. -/
theorem C2_amended_witness :
    storePaths (KubeconfigStore.filesystem fsStore0) = call0.config.KubeconfigPaths :=
  C2_amended_full_paths env0 flags0 (Except.ok (some cfg0)) call0 (by rfl)
    (KubeconfigStore.filesystem fsStore0) (by decide)

/-- C3 counterexample: with the flag set to `"F"`, the environment variable
to `"E"` and the configured file value `"C"` (all non-empty), `getVaultStore`
builds the client with address `"E"` — the environment variable, not the
flag, wins. -/
theorem C3_counterexample :
    getVaultStore env3 flags3 "C" [] =
      Except.ok { KubeconfigName := "config", KubeconfigPaths := [],
                  VaultAddress := "E", VaultToken := "tok" } ∧
    flags3.vaultAPIAddressFromFlag = "F" ∧
    env3.VAULT_ADDR = "E" ∧
    ("E" : String) ≠ "F" :=
  ⟨by rfl, by rfl, by rfl, by decide⟩

/-- C3 amended: the Vault API address is resolved by the precedence chain
environment variable > flag > configuration file: every constructed
VaultStore carries the chain's value, and if the chain bottoms out empty,
`getVaultStore` fails with the address ConfigurationError. -/
theorem C3_amended_precedence (env : Env) (flags : RootFlags)
    (cfgAddr : String) (paths : List KubeconfigPath) :
    (∀ vs, getVaultStore env flags cfgAddr paths = Except.ok vs →
      vs.VaultAddress = resolveVaultAddr env flags cfgAddr) ∧
    (resolveVaultAddr env flags cfgAddr = "" →
      getVaultStore env flags cfgAddr paths = Except.error vaultAddressMissingError) :=
  ⟨fun vs h => (getVaultStore_ok_basic env flags cfgAddr paths vs h).2.2,
   fun h => getVaultStore_addr_missing env flags cfgAddr paths h⟩

/-- C3 amended witness at the all-three-sources fixture. -/
theorem C3_amended_witness :
    ({ KubeconfigName := "config", KubeconfigPaths := [],
       VaultAddress := "E", VaultToken := "tok" } : VaultStore).VaultAddress =
      resolveVaultAddr env3 flags3 "C" :=
  (C3_amended_precedence env3 flags3 "C" []).1 _ (by rfl)

/-- C4: the Vault token is resolved with `VAULT_TOKEN` taking precedence
over the home-directory token file: every constructed VaultStore's token is
the environment value when non-empty and the file content otherwise; when
neither yields a non-empty token (and the address resolves), `getVaultStore`
returns the missing-token ConfigurationError and no store is constructed. -/
theorem C4_token_precedence (env : Env) (flags : RootFlags) (cfgAddr : String)
    (paths : List KubeconfigPath) (home : String)
    (hhome : env.userHomeDir = Except.ok home) :
    (∀ vs, getVaultStore env flags cfgAddr paths = Except.ok vs →
      vs.VaultToken = (if env.VAULT_TOKEN.length > 0 then env.VAULT_TOKEN
        else ((env.readFile (home ++ "/" ++ vaultTokenFileName)).toOption.getD ""))) ∧
    ((if env.VAULT_TOKEN.length > 0 then env.VAULT_TOKEN
        else ((env.readFile (home ++ "/" ++ vaultTokenFileName)).toOption.getD "")) = "" →
      resolveVaultAddr env flags cfgAddr ≠ "" →
      getVaultStore env flags cfgAddr paths = Except.error vaultTokenMissingError) := by
  constructor
  · intro vs h
    by_cases haddr : resolveVaultAddr env flags cfgAddr = ""
    · rw [getVaultStore_addr_missing env flags cfgAddr paths haddr] at h
      exact Except.noConfusion h
    · rw [getVaultStore_resolve env flags cfgAddr paths home hhome haddr] at h
      by_cases htok : (if env.VAULT_TOKEN.length > 0 then env.VAULT_TOKEN
          else ((env.readFile (home ++ "/" ++ vaultTokenFileName)).toOption.getD "")) = ""
      · rw [if_pos htok] at h
        exact Except.noConfusion h
      · rw [if_neg htok] at h
        injection h with h'
        subst h'
        rfl
  · intro htok haddr
    rw [getVaultStore_resolve env flags cfgAddr paths home hhome haddr]
    rw [if_pos htok]

/-- C4 witness: with both an environment token and a readable file, the
environment token is the one stored. -/
theorem C4_witness :
    vs4.VaultToken = (if env4.VAULT_TOKEN.length > 0 then env4.VAULT_TOKEN
      else ((env4.readFile ("/home/user" ++ "/" ++ vaultTokenFileName)).toOption.getD "")) :=
  (C4_token_precedence env4 flags0 "http://v" [] "/home/user" (by rfl)).1 vs4 (by rfl)

/-- A failing store construction propagates: `RunE` returns that error and
`pkg.Switcher` is never invoked. -/
lemma runE_error_of_buildStores (env : Env) (flags : RootFlags)
    (cfgOpt : Option Config) (e : String)
    (hb : buildStores env flags (effectiveConfig flags (cfgOpt.getD emptyConfig)) =
      Except.error e) :
    runE env flags (Except.ok cfgOpt) = Except.error e := by
  simp only [runE]
  rw [hb]

set_option maxRecDepth 100000 in
/-- C5 counterexample: `cfg5` lists a Vault entry before an unknown-kind
entry `"weird"`, with no Vault address resolvable; the command fails with
the Vault address error, which does not name the unknown store. -/
theorem C5_counterexample :
    runE env5 flags0 (Except.ok (some cfg5)) = Except.error vaultAddressMissingError ∧
    p_weird ∈ cfg5.KubeconfigPaths ∧
    p_weird.Store ≠ StoreKindFilesystem ∧
    p_weird.Store ≠ StoreKindVault ∧
    strMentions vaultAddressMissingError "weird" = false ∧
    vaultAddressMissingError ≠ unknownStoreError p_weird.Store :=
  ⟨by rfl, by decide, by decide, by decide, by decide, by decide⟩

/-- C5 amended: a configured PathSpec of unrecognized backend kind always
makes the switch command return a non-nil error before `pkg.Switcher` is
invoked; the error is the unknown-store ConfigurationError naming the kind
whenever every entry preceding the offending one is Filesystem-kind (an
earlier Vault-kind entry may fail its own configuration resolution first). -/
theorem C5_amended_unknown_kind (env : Env) (flags : RootFlags)
    (cfgOpt : Option Config) :
    ((∃ p ∈ (effectiveConfig flags (cfgOpt.getD emptyConfig)).KubeconfigPaths,
        p.Store ≠ StoreKindFilesystem ∧ p.Store ≠ StoreKindVault) →
      ∃ e, runE env flags (Except.ok cfgOpt) = Except.error e) ∧
    (∀ pre bad rest,
      (effectiveConfig flags (cfgOpt.getD emptyConfig)).KubeconfigPaths =
        pre ++ bad :: rest →
      bad.Store ≠ StoreKindFilesystem → bad.Store ≠ StoreKindVault →
      (∀ p ∈ pre, p.Store = StoreKindFilesystem) →
      runE env flags (Except.ok cfgOpt) =
        Except.error (unknownStoreError bad.Store)) := by
  constructor
  · intro hex
    rcases buildStoresGo_unknown_error env flags
      (effectiveConfig flags (cfgOpt.getD emptyConfig))
      (effectiveConfig flags (cfgOpt.getD emptyConfig)).KubeconfigPaths
      false false [] hex with ⟨e, he⟩
    exact ⟨e, runE_error_of_buildStores env flags cfgOpt e he⟩
  · intro pre bad rest hsplit hb1 hb2 hpre
    refine runE_error_of_buildStores env flags cfgOpt _ ?_
    unfold buildStores
    rw [hsplit]
    exact buildStoresGo_prefix_unknown env flags
      (effectiveConfig flags (cfgOpt.getD emptyConfig))
      pre bad rest false false [] hpre hb1 hb2

/-- C5 amended witness: a lone unknown-kind entry yields exactly the
unknown-store error. -/
theorem C5_amended_witness :
    runE env5 flags0 (Except.ok (some cfg5w)) =
      Except.error (unknownStoreError "weird") :=
  (C5_amended_unknown_kind env5 flags0 (some cfg5w)).2 [] p_weird []
    (by rfl) (by decide) (by decide) (by simp)

set_option maxRecDepth 100000 in
/-- C6 counterexample: `cfg6` configures a Vault entry with no address
resolvable from flag, environment or file, but an unknown-kind entry comes
first, so the command fails with the unknown-store error, whose message
does not name the accepted address sources. -/
theorem C6_counterexample :
    runE env5 flags0 (Except.ok (some cfg6)) =
      Except.error (unknownStoreError "weird") ∧
    p_vault ∈ cfg6.KubeconfigPaths ∧
    p_vault.Store = StoreKindVault ∧
    resolveVaultAddr env5 flags0 cfg6.VaultAPIAddress = "" ∧
    strMentions (unknownStoreError "weird") "VAULT_ADDR" = false ∧
    unknownStoreError "weird" ≠ vaultAddressMissingError :=
  ⟨by rfl, by decide, by decide, by rfl, by decide, by decide⟩

/-- C6 amended: when all configured backend kinds are recognized, some
PathSpec is Vault-kind, and no Vault API address resolves from flag,
environment variable or configuration file, the switch command returns the
address ConfigurationError before `pkg.Switcher` is invoked; that error's
message names the flag, `VAULT_ADDR` and the SwitchConfig file as the
accepted sources. -/
theorem C6_amended_missing_address (env : Env) (flags : RootFlags)
    (cfgOpt : Option Config)
    (hknown : ∀ p ∈ (effectiveConfig flags (cfgOpt.getD emptyConfig)).KubeconfigPaths,
      p.Store = StoreKindFilesystem ∨ p.Store = StoreKindVault)
    (hvault : ∃ p ∈ (effectiveConfig flags (cfgOpt.getD emptyConfig)).KubeconfigPaths,
      p.Store = StoreKindVault)
    (haddr : resolveVaultAddr env flags
      (effectiveConfig flags (cfgOpt.getD emptyConfig)).VaultAPIAddress = "") :
    runE env flags (Except.ok cfgOpt) = Except.error vaultAddressMissingError ∧
    strMentions vaultAddressMissingError "VAULT_ADDR" = true ∧
    strMentions vaultAddressMissingError "command line argument" = true ∧
    strMentions vaultAddressMissingError "SwitchConfig file" = true := by
  refine ⟨?_, by decide, by decide, by decide⟩
  refine runE_error_of_buildStores env flags cfgOpt _ ?_
  exact buildStoresGo_vault_first_error env flags
    (effectiveConfig flags (cfgOpt.getD emptyConfig)) vaultAddressMissingError
    (getVaultStore_addr_missing env flags _ _ haddr)
    (effectiveConfig flags (cfgOpt.getD emptyConfig)).KubeconfigPaths
    false [] hknown hvault

/-- C6 amended witness: a lone Vault entry with no resolvable address. -/
theorem C6_amended_witness :
    runE env5 flags0 (Except.ok (some cfg6w)) =
      Except.error vaultAddressMissingError ∧
    strMentions vaultAddressMissingError "VAULT_ADDR" = true ∧
    strMentions vaultAddressMissingError "command line argument" = true ∧
    strMentions vaultAddressMissingError "SwitchConfig file" = true :=
  C6_amended_missing_address env5 flags0 (some cfg6w)
    (by decide) (by decide) (by rfl)

/-- C7: at most one command-line override entry is added: when the
`--kubeconfig-path` flag value is non-empty, the configured list handed to
`pkg.Switcher` is the loaded list with exactly one entry (the flag's path
and the `--store` kind) appended at the end; when the flag value is empty,
the loaded list is used unchanged. -/
theorem C7_override_append (env : Env) (flags : RootFlags) (cfg : Config)
    (call : SwitcherCall)
    (h : runE env flags (Except.ok (some cfg)) = Except.ok call) :
    call.config.KubeconfigPaths =
      (if flags.kubeconfigPath.length > 0 then
        cfg.KubeconfigPaths ++
          [{ Path := flags.kubeconfigPath, Store := flags.storageBackend }]
      else cfg.KubeconfigPaths) := by
  have hc := runE_ok_config env flags (some cfg) call h
  rw [hc]
  simp only [Option.getD]
  unfold effectiveConfig
  by_cases hk : flags.kubeconfigPath.length > 0
  · rw [if_pos hk, if_pos hk]
  · rw [if_neg hk, if_neg hk]

set_option maxRecDepth 100000 in
/-- C7 witness: the override fixture appends exactly one entry. -/
theorem C7_witness :
    call7.config.KubeconfigPaths =
      (if flags7.kubeconfigPath.length > 0 then
        cfg7.KubeconfigPaths ++
          [{ Path := flags7.kubeconfigPath, Store := flags7.storageBackend }]
      else cfg7.KubeconfigPaths) :=
  C7_override_append env0 flags7 cfg7 call7 (by rfl)

/-- C8: the stores list passed to `pkg.Switcher` preserves
first-registration order: its kinds are exactly the configured kinds in the
order each backend kind first occurs in the KubeconfigPaths list. -/
theorem C8_store_order (env : Env) (flags : RootFlags)
    (loadResult : Except String (Option Config)) (call : SwitcherCall)
    (h : runE env flags loadResult = Except.ok call) :
    List.map storeKind call.stores =
      dedupFirst (List.map KubeconfigPath.Store call.config.KubeconfigPaths) :=
  runE_ok_kinds env flags loadResult call h

set_option maxRecDepth 100000 in
/-- C8 witness: filesystem before vault in the fixture, so the store list is
filesystem store then vault store. -/
theorem C8_witness :
    List.map storeKind call0.stores =
      dedupFirst (List.map KubeconfigPath.Store call0.config.KubeconfigPaths) :=
  C8_store_order env0 flags0 (Except.ok (some cfg0)) call0 (by rfl)

/-- C9: the hooks subcommand's `--run-immediately` flag defaults to true:
whenever the flag is not passed, `hooks.Hooks` is invoked with
`runImmediately = true`. -/
theorem C9_run_immediately_default (home : String) (args : HookCmdLine)
    (h : args.runImmediatelyArg = none) :
    (hooksRunE home args).runImmediately = true := by
  simp [hooksRunE, h, runImmediatelyDefault]

/-- C9 witness at a command line that leaves the flag unset. -/
theorem C9_witness : (hooksRunE "/home/user" args9).runImmediately = true :=
  C9_run_immediately_default "/home/user" args9 (by rfl)

/-- C10: a failure to read the home-directory Vault token file is silently
treated as an absent token: when the read fails and `VAULT_TOKEN` is unset
(and the address resolves), the only error surfaced is the missing-token
ConfigurationError, never the underlying I/O error. -/
theorem C10_read_error_silent (env : Env) (flags : RootFlags)
    (cfgAddr : String) (paths : List KubeconfigPath) (home ioErr : String)
    (hhome : env.userHomeDir = Except.ok home)
    (hread : env.readFile (home ++ "/" ++ vaultTokenFileName) = Except.error ioErr)
    (htok : env.VAULT_TOKEN = "")
    (haddr : resolveVaultAddr env flags cfgAddr ≠ "") :
    getVaultStore env flags cfgAddr paths = Except.error vaultTokenMissingError := by
  rw [getVaultStore_resolve env flags cfgAddr paths home hhome haddr]
  rw [if_pos (by simp [htok, hread, Except.toOption])]

/-- C10 witness: unreadable token file, empty environment token, address
present; the surfaced error is the missing-token one, not the I/O error. -/
theorem C10_witness :
    getVaultStore env10 flags0 "" [] = Except.error vaultTokenMissingError :=
  C10_read_error_silent env10 flags0 "" [] "/home/user" "permission denied"
    (by rfl) (by rfl) (by rfl) (by decide)

end Kubeswitch
